import Mathlib

/-!
Shallow embedding of `analyze.py` from the dsn-traveller repository.

The script runs four sequential steps:
1. invoke the external `circo` layout tool on `graph/graph.dot`, producing
   `graph/graph.ps`;
2. read `graph/graph.graphml` with networkit's `graphio.readGraph` and print
   the node and edge counts;
3. run the networkit profiler over the loaded graph, writing an HTML report,
   and invoke `xdg-open` on `graph/graph.html`;
4. compute degree-centrality scores, sort them descending, and show a
   log-log matplotlib plot of them.

We model the file system as a partial map from path strings to file
contents, external processes and prints as events appended to a trace, and
matplotlib's figure state as a record.  Each step of the script becomes a
Lean function on a `World` state; the whole script is `runScript`, which
stops at the first failing step (Python exceptions are unhandled in the
script, so a failing step terminates the process).
-/

/-- A GraphML document: a list of node identifiers and a list of edges
between node identifiers.  This is the abstract content of
`graph/graph.graphml`. -/
structure GraphMLDoc where
  nodes : List Nat
  edges : List (Nat × Nat)
deriving DecidableEq

/-- A GraphML document is valid when its node identifiers are distinct and
every edge endpoint is a declared node. -/
def GraphMLDoc.valid (d : GraphMLDoc) : Prop :=
  d.nodes.Nodup ∧ ∀ e ∈ d.edges, e.1 ∈ d.nodes ∧ e.2 ∈ d.nodes

instance (d : GraphMLDoc) : Decidable d.valid := by
  unfold GraphMLDoc.valid; infer_instance

/-- The in-memory graph built by networkit from a GraphML document:
a node list and an edge list. -/
structure Graph where
  nodes : List Nat
  edges : List (Nat × Nat)
deriving DecidableEq

/-- `graphio.readGraph` builds the graph with exactly the nodes and edges of
the GraphML document. -/
def Graph.ofGraphML (d : GraphMLDoc) : Graph :=
  { nodes := d.nodes, edges := d.edges }

/-- networkit's `graph.numberOfNodes()`. -/
def Graph.numberOfNodes (g : Graph) : Nat := g.nodes.length

/-- networkit's `graph.numberOfEdges()`. -/
def Graph.numberOfEdges (g : Graph) : Nat := g.edges.length

/-- The degree of a node: the number of edges incident to it. -/
def Graph.degree (g : Graph) (u : Nat) : Nat :=
  (g.edges.filter (fun e => e.1 == u || e.2 == u)).length

/-- networkit's `centrality.DegreeCentrality(graph).run().scores()`:
one score per node, the node's degree (the default is unnormalized, so the
score of a node is exactly its degree). -/
def DegreeCentrality.scores (g : Graph) : List Nat :=
  g.nodes.map g.degree

/-- Python's `sorted(xs, reverse=True)`: the list sorted in non-increasing
order. -/
def sortedDesc (xs : List Nat) : List Nat :=
  List.insertionSort (fun a b => b ≤ a) xs

/-- The sequence the script binds to `dd`:
`sorted(centrality.DegreeCentrality(graph).run().scores(), reverse=True)`. -/
def dd (g : Graph) : List Nat :=
  sortedDesc (DegreeCentrality.scores g)

/-- Content of a file in the modelled file system. -/
inductive FileContent where
  /-- a DOT-format graph description -/
  | dot (d : String)
  /-- a GraphML-format graph description -/
  | graphml (d : GraphMLDoc)
  /-- a PostScript rendering produced by circo from a DOT description -/
  | ps (src : String)
  /-- the HTML profiling report for a graph -/
  | html (g : Graph)
  /-- any other (for the script: malformed) content -/
  | text (s : String)
deriving DecidableEq

/-- The file system: a partial map from paths to contents. -/
def FS : Type := String → Option FileContent

/-- Writing a file: update the map at one path. -/
def FS.write (fs : FS) (p : String) (c : FileContent) : FS :=
  fun q => if q = p then some c else fs q

/-- The fixed input path of the layout step. -/
def dotPath : String := "graph/graph.dot"

/-- The fixed output path of the layout step. -/
def psPath : String := "graph/graph.ps"

/-- The fixed input path of the graph loader. -/
def graphmlPath : String := "graph/graph.graphml"

/-- Modelled from the spec: the networkit profiler, invoked as
`pf.output("HTML", ".")`, writes the HTML report as `graph.html` in the
current working directory (the networkit `profiling` module itself is not
part of this repository). -/
def htmlOutPath : String := "graph.html"

/-- The path the script passes to `xdg-open`. -/
def xdgOpenArg : String := "graph/graph.html"

/-- Observable events of a run, in order. -/
inductive Event where
  /-- the external circo process was invoked -/
  | runCirco
  /-- a file was written at the given path -/
  | writeFile (p : String)
  /-- a file was read at the given path -/
  | readFile (p : String)
  /-- a line was printed to standard output -/
  | printLine (s : String)
  /-- `xdg-open` was invoked on the given path -/
  | runXdgOpen (p : String)
  /-- the matplotlib window was shown -/
  | plotShow
deriving DecidableEq

/-- The state of the matplotlib figure. -/
structure PltState where
  xscale : String
  xlabel : String
  yscale : String
  ylabel : String
  data : List Nat
  shown : Bool
deriving DecidableEq

/-- matplotlib's initial figure state: linear scales, empty labels, no
data, nothing shown. -/
def initPlt : PltState :=
  { xscale := "linear", xlabel := "", yscale := "linear", ylabel := "",
    data := [], shown := false }

/-- The whole world the script acts on: whether the circo renderer is
installed, the file system, the loaded graph (if any), the event trace, and
the matplotlib state. -/
structure World where
  circoInstalled : Bool
  fs : FS
  graph : Option Graph
  trace : List Event
  plt : PltState

/-- The ways a step of the script can fail (each raises an unhandled Python
exception). -/
inductive Err where
  /-- the circo renderer is not installed -/
  | circoNotInstalled
  /-- circo failed, e.g. because its input file is missing -/
  | circoFailed
  /-- `graphio.readGraph` failed: missing or malformed GraphML file -/
  | readGraphFailed
deriving DecidableEq

/-- Step 1: `circo["-Tps", "graph/graph.dot", "-o", "graph/graph.ps"]()`.
Fails if circo is not installed or the DOT input file is missing or not a
DOT description; otherwise writes the PostScript rendering. -/
def circoStep (w : World) : Except Err World :=
  if w.circoInstalled then
    match w.fs dotPath with
    | some (FileContent.dot d) =>
        Except.ok { w with
          fs := FS.write w.fs psPath (FileContent.ps d),
          trace := w.trace ++ [Event.runCirco, Event.writeFile psPath] }
    | _ => Except.error Err.circoFailed
  else
    Except.error Err.circoNotInstalled

/-- Step 2a: `graph = graphio.readGraph("graph/graph.graphml", fileformat=Format.GraphML)`.
Fails if the GraphML file is missing or malformed; otherwise returns the
loaded graph. -/
def readGraphStep (w : World) : Except Err (World × Graph) :=
  match w.fs graphmlPath with
  | some (FileContent.graphml doc) =>
      let g := Graph.ofGraphML doc
      Except.ok
        ({ w with graph := some g,
                  trace := w.trace ++ [Event.readFile graphmlPath] }, g)
  | _ => Except.error Err.readGraphFailed

/-- The line printed by `print("Nodes: {} Edges: {}".format(...))`. -/
def nodesEdgesLine (g : Graph) : String :=
  "Nodes: " ++ toString g.numberOfNodes ++ " Edges: " ++ toString g.numberOfEdges

/-- Step 2b: the `print` of the node and edge counts. -/
def printStep (w : World) (g : Graph) : World :=
  { w with trace := w.trace ++ [Event.printLine (nodesEdgesLine g)] }

/-- Step 3a: `pf = profiling.Profile.create(graph, preset="minimal")` and
`pf.output("HTML", ".")`.  Modelled from the spec: the report is written as
`graph.html` in the current working directory. -/
def profileStep (w : World) (g : Graph) : World :=
  { w with fs := FS.write w.fs htmlOutPath (FileContent.html g),
           trace := w.trace ++ [Event.writeFile htmlOutPath] }

/-- Step 3b: `xdg_open["graph/graph.html"]()`: hand the fixed path to the
system's default viewer. -/
def xdgOpenStep (w : World) : World :=
  { w with trace := w.trace ++ [Event.runXdgOpen xdgOpenArg] }

/-- Step 4: set log scales and labels, plot `dd`, and show the window. -/
def plotStep (w : World) (g : Graph) : World :=
  { w with
    plt := { xscale := "log", xlabel := "degree", yscale := "log",
             ylabel := "number of nodes", data := dd g, shown := true },
    trace := w.trace ++ [Event.plotShow] }

/-- The whole script.  Steps run strictly in order; the first failing step
terminates the run (its exception is unhandled), returning the world as it
was at that point together with the error. -/
def runScript (w0 : World) : World × Except Err Unit :=
  match circoStep w0 with
  | Except.error e => (w0, Except.error e)
  | Except.ok w1 =>
    match readGraphStep w1 with
    | Except.error e => (w1, Except.error e)
    | Except.ok (w2, g) =>
      let w3 := printStep w2 g
      let w4 := profileStep w3 g
      let w5 := xdgOpenStep w4
      let w6 := plotStep w5 g
      (w6, Except.ok ())

/-- The process exit status: 0 on success, 1 when an unhandled exception
terminates the Python interpreter. -/
def exitCode : Except Err Unit → Nat
  | Except.ok _ => 0
  | Except.error _ => 1

/-! ### Helper instances and lemmas -/

instance : IsTotal Nat (fun a b => b ≤ a) := ⟨fun a b => le_total b a⟩

instance : IsTrans Nat (fun a b => b ≤ a) := ⟨fun _ _ _ h h2 => le_trans h2 h⟩

lemma sortedDesc_perm (xs : List Nat) : List.Perm (sortedDesc xs) xs :=
  List.perm_insertionSort _ xs

lemma sortedDesc_sorted (xs : List Nat) :
    List.Sorted (fun a b => b ≤ a) (sortedDesc xs) :=
  List.sorted_insertionSort _ xs

lemma scores_length (g : Graph) :
    (DegreeCentrality.scores g).length = g.numberOfNodes := by
  simp [DegreeCentrality.scores, Graph.numberOfNodes]

lemma dd_length (g : Graph) : (dd g).length = g.numberOfNodes := by
  unfold dd
  rw [(sortedDesc_perm _).length_eq, scores_length]

/-! ### Claim theorems -/

/-- C1: the degree-centrality score sequence `dd` computed by the
centrality-plot step has length equal to the number of nodes of the loaded
graph, and every adjacent pair of elements is non-increasing (the earlier
element is greater than or equal to the later one), for every loaded
graph. -/
theorem C1_dd_length_and_sorted (g : Graph) :
    (dd g).length = g.numberOfNodes ∧ List.Chain' (fun a b => b ≤ a) (dd g) :=
  ⟨dd_length g, List.Pairwise.chain' (sortedDesc_sorted _)⟩

/-- C5: for every loaded graph with zero edges, every element of the
degree-centrality score sequence equals zero: both the raw score list and
the sorted sequence `dd` are the all-zero list of length `numberOfNodes`. -/
theorem C5_zero_edges_zero_scores (g : Graph) (h : g.numberOfEdges = 0) :
    DegreeCentrality.scores g = List.replicate g.numberOfNodes 0 ∧
      dd g = List.replicate g.numberOfNodes 0 := by
  have hedges : g.edges = [] := List.length_eq_zero.mp h
  have hdeg : ∀ u, g.degree u = 0 := by
    intro u; simp [Graph.degree, hedges]
  have hscores : DegreeCentrality.scores g = List.replicate g.numberOfNodes 0 := by
    rw [List.eq_replicate_iff]
    refine ⟨scores_length g, ?_⟩
    intro b hb
    rcases List.mem_map.mp hb with ⟨u, _, rfl⟩
    exact hdeg u
  refine ⟨hscores, ?_⟩
  rw [List.eq_replicate_iff]
  refine ⟨dd_length g, ?_⟩
  intro b hb
  have hb2 : b ∈ DegreeCentrality.scores g := (sortedDesc_perm _).mem_iff.mp hb
  rw [hscores] at hb2
  exact List.eq_of_mem_replicate hb2

/-- C7: after the graph is loaded, no operation of the script mutates it:
the `graph` component of the world is unchanged by the print step, the
profiling step, the xdg-open step and the centrality-plot step, so its node
set, edge set and node/edge counts are identical before and after the
profiling step and the centrality-plot step, for every loaded graph. -/
theorem C7_graph_not_mutated (w : World) (g : Graph) :
    (printStep w g).graph = w.graph ∧ (profileStep w g).graph = w.graph ∧
      (xdgOpenStep w).graph = w.graph ∧ (plotStep w g).graph = w.graph :=
  ⟨rfl, rfl, rfl, rfl⟩

lemma graphmlPath_ne_psPath : graphmlPath ≠ psPath := by decide

lemma psPath_ne_htmlOutPath : psPath ≠ htmlOutPath := by decide

lemma xdgOpenArg_ne_htmlOutPath : xdgOpenArg ≠ htmlOutPath := by decide

lemma xdgOpenArg_ne_psPath : xdgOpenArg ≠ psPath := by decide

/-- The event trace appended by one complete, successful run. -/
def fullTrace (doc : GraphMLDoc) : List Event :=
  [Event.runCirco, Event.writeFile psPath, Event.readFile graphmlPath,
   Event.printLine (nodesEdgesLine (Graph.ofGraphML doc)),
   Event.writeFile htmlOutPath, Event.runXdgOpen xdgOpenArg, Event.plotShow]

/-- The final matplotlib state of a successful run. -/
def finalPlt (doc : GraphMLDoc) : PltState :=
  { xscale := "log", xlabel := "degree", yscale := "log",
    ylabel := "number of nodes", data := dd (Graph.ofGraphML doc),
    shown := true }

/-- When circo is installed, the DOT file is present and the GraphML file is
present and well-formed, the run succeeds and every component of the final
world is determined. -/
lemma runScript_ok (w : World) (d : String) (doc : GraphMLDoc)
    (hc : w.circoInstalled = true)
    (hdot : w.fs dotPath = some (FileContent.dot d))
    (hgml : w.fs graphmlPath = some (FileContent.graphml doc)) :
    runScript w =
      ({ circoInstalled := w.circoInstalled,
         fs := FS.write (FS.write w.fs psPath (FileContent.ps d)) htmlOutPath
                 (FileContent.html (Graph.ofGraphML doc)),
         graph := some (Graph.ofGraphML doc),
         trace := w.trace ++ fullTrace doc,
         plt := finalPlt doc }, Except.ok ()) := by
  have hgml2 : FS.write w.fs psPath (FileContent.ps d) graphmlPath =
      some (FileContent.graphml doc) := by
    rw [FS.write, if_neg graphmlPath_ne_psPath, hgml]
  simp only [runScript, circoStep, readGraphStep, printStep, profileStep,
    xdgOpenStep, plotStep, fullTrace, finalPlt, hc, if_true, hdot, hgml2]
  simp [List.append_assoc]

/-! ### Sample inputs for concrete runs -/

/-- A small GraphML document: three nodes, one edge. -/
def sampleDoc : GraphMLDoc := { nodes := [0, 1, 2], edges := [(0, 1)] }

/-- A sample DOT description. -/
def sampleDot : String := "digraph g"

/-- A file system holding (at most) the two input files of the script. -/
def fsWith (dotc gmlc : Option FileContent) : FS :=
  fun p => if p = dotPath then dotc else if p = graphmlPath then gmlc else none

/-- A fresh world: circo installed, the given input files, nothing else. -/
def world0 (dotc gmlc : Option FileContent) : World :=
  { circoInstalled := true, fs := fsWith dotc gmlc, graph := none,
    trace := [], plt := initPlt }

/-- A fresh world with both input files present and well-formed. -/
def wOK : World :=
  world0 (some (FileContent.dot sampleDot)) (some (FileContent.graphml sampleDoc))

/-- A fresh world missing both input files. -/
def wNoDot : World := world0 none none

/-- A fresh world with the DOT file present but the GraphML file missing. -/
def wNoGml : World := world0 (some (FileContent.dot sampleDot)) none

/-- C6: the four steps execute strictly sequentially in the order layout,
graph load, profiling, centrality plot: on every successful run the event
trace extends the initial trace by exactly the layout invocation and
`graph/graph.ps` write, then the GraphML read, then the count print, then
the HTML report write and the xdg-open invocation, then the plot display —
so `graph/graph.ps` is produced before the GraphML file is read, and the
HTML report is written before the plot is shown. -/
theorem C6_sequential_order (w : World) (d : String) (doc : GraphMLDoc)
    (hc : w.circoInstalled = true)
    (hdot : w.fs dotPath = some (FileContent.dot d))
    (hgml : w.fs graphmlPath = some (FileContent.graphml doc)) :
    (runScript w).1.trace =
      w.trace ++ [Event.runCirco, Event.writeFile psPath,
        Event.readFile graphmlPath,
        Event.printLine (nodesEdgesLine (Graph.ofGraphML doc)),
        Event.writeFile htmlOutPath, Event.runXdgOpen xdgOpenArg,
        Event.plotShow] ∧
    (runScript w).2 = Except.ok () := by
  rw [runScript_ok w d doc hc hdot hgml]
  exact ⟨rfl, rfl⟩

/-- Witness for C6 at a concrete world. -/
theorem C6_sequential_order_witness :
    (runScript wOK).1.trace =
      [Event.runCirco, Event.writeFile psPath, Event.readFile graphmlPath,
       Event.printLine (nodesEdgesLine (Graph.ofGraphML sampleDoc)),
       Event.writeFile htmlOutPath, Event.runXdgOpen xdgOpenArg,
       Event.plotShow] ∧
    (runScript wOK).2 = Except.ok () := by
  have h := C6_sequential_order wOK sampleDot sampleDoc rfl rfl rfl
  simpa using h

/-- C9: on every successful run the centrality-plot step sets logarithmic
scale on both axes, plots exactly the sorted score sequence `dd`, and shows
the window; the plotted data is a permutation of the per-node degree
scores in non-increasing order, so the i-th plotted point is the i-th
largest score. -/
theorem C9_loglog_plot (w : World) (d : String) (doc : GraphMLDoc)
    (hc : w.circoInstalled = true)
    (hdot : w.fs dotPath = some (FileContent.dot d))
    (hgml : w.fs graphmlPath = some (FileContent.graphml doc)) :
    (runScript w).1.plt.xscale = "log" ∧
    (runScript w).1.plt.yscale = "log" ∧
    (runScript w).1.plt.shown = true ∧
    (runScript w).1.plt.data = dd (Graph.ofGraphML doc) ∧
    List.Chain' (fun a b => b ≤ a) ((runScript w).1.plt.data) ∧
    List.Perm ((runScript w).1.plt.data)
      (DegreeCentrality.scores (Graph.ofGraphML doc)) := by
  rw [runScript_ok w d doc hc hdot hgml]
  refine ⟨rfl, rfl, rfl, rfl, ?_, ?_⟩
  · exact List.Pairwise.chain' (sortedDesc_sorted _)
  · exact sortedDesc_perm _

/-- Witness for C9 at a concrete world. -/
theorem C9_loglog_plot_witness :
    (runScript wOK).1.plt.xscale = "log" ∧
    (runScript wOK).1.plt.yscale = "log" ∧
    (runScript wOK).1.plt.shown = true ∧
    (runScript wOK).1.plt.data = dd (Graph.ofGraphML sampleDoc) := by
  have h := C9_loglog_plot wOK sampleDot sampleDoc rfl rfl rfl
  exact ⟨h.1, h.2.1, h.2.2.1, h.2.2.2.1⟩

/-- C4: for every valid GraphML input describing a graph with N nodes and
E edges, the loader builds exactly that graph and the print step prints
exactly N as the node count and E as the edge count. -/
theorem C4_loader_prints_counts (w : World) (doc : GraphMLDoc) (N E : Nat)
    (hf : w.fs graphmlPath = some (FileContent.graphml doc))
    (_hv : doc.valid) (hN : doc.nodes.length = N) (hE : doc.edges.length = E) :
    readGraphStep w = Except.ok
      ({ w with graph := some (Graph.ofGraphML doc),
                trace := w.trace ++ [Event.readFile graphmlPath] },
        Graph.ofGraphML doc) ∧
    nodesEdgesLine (Graph.ofGraphML doc) =
      "Nodes: " ++ toString N ++ " Edges: " ++ toString E ∧
    ∀ w2 : World, (printStep w2 (Graph.ofGraphML doc)).trace =
      w2.trace ++
        [Event.printLine ("Nodes: " ++ toString N ++ " Edges: " ++ toString E)] := by
  have hline : nodesEdgesLine (Graph.ofGraphML doc) =
      "Nodes: " ++ toString N ++ " Edges: " ++ toString E := by
    rw [nodesEdgesLine]
    rw [show (Graph.ofGraphML doc).numberOfNodes = N from hN ▸ rfl]
    rw [show (Graph.ofGraphML doc).numberOfEdges = E from hE ▸ rfl]
  refine ⟨?_, hline, ?_⟩
  · rw [readGraphStep, hf]
  · intro w2
    rw [printStep, hline]

/-- Witness for C4 at a concrete GraphML document with 3 nodes, 1 edge. -/
theorem C4_loader_prints_counts_witness :
    nodesEdgesLine (Graph.ofGraphML sampleDoc) =
      "Nodes: " ++ toString 3 ++ " Edges: " ++ toString 1 :=
  (C4_loader_prints_counts (world0 none (some (FileContent.graphml sampleDoc)))
    sampleDoc 3 1 rfl (by decide) rfl rfl).2.1

lemma runScript_circo_err (w : World) (e : Err) (h : circoStep w = Except.error e) :
    runScript w = (w, Except.error e) := by
  unfold runScript
  rw [h]

lemma runScript_read_err (w w1 : World) (e : Err)
    (h : circoStep w = Except.ok w1) (hr : readGraphStep w1 = Except.error e) :
    runScript w = (w1, Except.error e) := by
  unfold runScript
  rw [h]
  dsimp only
  rw [hr]

/-- C8: any failure in any step (circo not installed, missing input file,
malformed GraphML) propagates unhandled: the script terminates immediately
with a non-zero exit status, leaving the world exactly as it was when the
step failed — so no subsequent step runs (its events never enter the
trace), and nothing is retried. -/
theorem C8_failure_terminates (w : World) (e : Err) :
    (circoStep w = Except.error e →
       runScript w = (w, Except.error e) ∧ exitCode (runScript w).2 = 1) ∧
    (∀ w1 : World, circoStep w = Except.ok w1 →
       readGraphStep w1 = Except.error e →
       runScript w = (w1, Except.error e) ∧ exitCode (runScript w).2 = 1) := by
  constructor
  · intro h
    have h1 := runScript_circo_err w e h
    exact ⟨h1, by rw [h1]; rfl⟩
  · intro w1 h hr
    have h1 := runScript_read_err w w1 e h hr
    exact ⟨h1, by rw [h1]; rfl⟩

/-- Witness for C8 at a concrete world missing both input files. -/
theorem C8_failure_terminates_witness :
    runScript wNoDot = (wNoDot, Except.error Err.circoFailed) ∧
    exitCode (runScript wNoDot).2 = 1 :=
  (C8_failure_terminates wNoDot Err.circoFailed).1 rfl

/-- Counterexample to C2 as stated: in a fresh world where only
`graph/graph.graphml` is missing, the run fails, yet afterwards
`graph/graph.ps` exists — the layout step already produced an output
artifact before the failure. -/
theorem C2_counterexample :
    (runScript wNoGml).2 = Except.error Err.readGraphFailed ∧
    (runScript wNoGml).1.fs psPath ≠ none := by
  exact ⟨rfl, by decide⟩

/-- C2 (amended): if `graph/graph.dot` is missing the script fails with a
non-zero exit status and produces no output artifact (neither
`graph/graph.ps` nor `graph.html`, given that neither pre-existed); if
instead `graph/graph.dot` is present and only `graph/graph.graphml` is
missing, the script still fails with a non-zero exit status before the HTML
report is produced, but `graph/graph.ps` has already been written by the
layout step. -/
theorem C2_missing_input_amended (w : World) (d : String) :
    (w.fs dotPath = none → w.fs psPath = none → w.fs htmlOutPath = none →
       exitCode (runScript w).2 = 1 ∧ (runScript w).1.fs psPath = none ∧
         (runScript w).1.fs htmlOutPath = none) ∧
    (w.circoInstalled = true → w.fs dotPath = some (FileContent.dot d) →
       w.fs graphmlPath = none → w.fs htmlOutPath = none →
       exitCode (runScript w).2 = 1 ∧ (runScript w).1.fs htmlOutPath = none ∧
         (runScript w).1.fs psPath = some (FileContent.ps d)) := by
  constructor
  · intro hdot hps hhtml
    have hrun : ∃ e, runScript w = (w, Except.error e) := by
      cases hb : w.circoInstalled
      · refine ⟨Err.circoNotInstalled, ?_⟩
        apply runScript_circo_err
        unfold circoStep
        rw [hb]
        rfl
      · refine ⟨Err.circoFailed, ?_⟩
        apply runScript_circo_err
        unfold circoStep
        rw [hb, hdot]
        rfl
    rcases hrun with ⟨e, he⟩
    rw [he]
    exact ⟨rfl, hps, hhtml⟩
  · intro hc hdot hgml hhtml
    have h1 : circoStep w = Except.ok { w with
        fs := FS.write w.fs psPath (FileContent.ps d),
        trace := w.trace ++ [Event.runCirco, Event.writeFile psPath] } := by
      unfold circoStep
      rw [hc, hdot]
      rfl
    have hgml2 : FS.write w.fs psPath (FileContent.ps d) graphmlPath = none := by
      rw [FS.write, if_neg graphmlPath_ne_psPath, hgml]
    have h2 : runScript w = ({ w with
        fs := FS.write w.fs psPath (FileContent.ps d),
        trace := w.trace ++ [Event.runCirco, Event.writeFile psPath] },
        Except.error Err.readGraphFailed) := by
      apply runScript_read_err _ _ _ h1
      unfold readGraphStep
      dsimp only
      rw [hgml2]
    rw [h2]
    refine ⟨rfl, ?_, ?_⟩
    · show FS.write w.fs psPath (FileContent.ps d) htmlOutPath = none
      rw [FS.write, if_neg (Ne.symm psPath_ne_htmlOutPath), hhtml]
    · show FS.write w.fs psPath (FileContent.ps d) psPath = some (FileContent.ps d)
      rw [FS.write, if_pos rfl]

/-- Witness for the amended C2 at a concrete world where only the GraphML
file is missing. -/
theorem C2_missing_input_amended_witness :
    exitCode (runScript wNoGml).2 = 1 ∧
    (runScript wNoGml).1.fs htmlOutPath = none ∧
    (runScript wNoGml).1.fs psPath = some (FileContent.ps sampleDot) :=
  (C2_missing_input_amended wNoGml sampleDot).2 rfl rfl rfl rfl

/-- C3 (divergence): on a fresh successful run, the profiler writes the
HTML report at `graph.html` in the current working directory, but the
script then invokes xdg-open on the different path `graph/graph.html`,
where no file exists — so the file handed to the system's default viewer is
not the report artifact that was written. -/
theorem C3_report_path_mismatch :
    (runScript wOK).1.fs htmlOutPath =
      some (FileContent.html (Graph.ofGraphML sampleDoc)) ∧
    Event.runXdgOpen xdgOpenArg ∈ (runScript wOK).1.trace ∧
    xdgOpenArg ≠ htmlOutPath ∧
    (runScript wOK).1.fs xdgOpenArg = none := by
  refine ⟨rfl, by decide, by decide, rfl⟩

lemma circoStep_not_installed (w : World) (h : w.circoInstalled = false) :
    circoStep w = Except.error Err.circoNotInstalled := by
  unfold circoStep
  rw [h]
  rfl

lemma circoStep_no_dot (w : World) (h : w.circoInstalled = true)
    (hno : ∀ d, w.fs dotPath ≠ some (FileContent.dot d)) :
    circoStep w = Except.error Err.circoFailed := by
  unfold circoStep
  rw [h]
  cases hd : w.fs dotPath with
  | none => rfl
  | some c =>
    cases c with
    | dot d => exact absurd hd (hno d)
    | graphml d => rfl
    | ps s => rfl
    | html g => rfl
    | text s => rfl

lemma circoStep_ok_eq (w : World) (d : String) (h1 : w.circoInstalled = true)
    (h2 : w.fs dotPath = some (FileContent.dot d)) :
    circoStep w = Except.ok { w with
      fs := FS.write w.fs psPath (FileContent.ps d),
      trace := w.trace ++ [Event.runCirco, Event.writeFile psPath] } := by
  unfold circoStep
  rw [h1, h2]
  rfl

lemma readGraphStep_no_gml (w : World)
    (hno : ∀ doc, w.fs graphmlPath ≠ some (FileContent.graphml doc)) :
    readGraphStep w = Except.error Err.readGraphFailed := by
  unfold readGraphStep
  cases hg : w.fs graphmlPath with
  | none => rfl
  | some c =>
    cases c with
    | dot d => rfl
    | graphml doc => exact absurd hg (hno doc)
    | ps s => rfl
    | html g => rfl
    | text s => rfl

lemma write_ps_at_ps (f : FS) (d : String) :
    FS.write f psPath (FileContent.ps d) psPath = some (FileContent.ps d) := by
  rw [FS.write, if_pos rfl]

lemma write_ps_at_html (f : FS) (d : String) :
    FS.write f psPath (FileContent.ps d) htmlOutPath = f htmlOutPath := by
  rw [FS.write, if_neg (Ne.symm psPath_ne_htmlOutPath)]

lemma write_ps_at_gml (f : FS) (d : String) :
    FS.write f psPath (FileContent.ps d) graphmlPath = f graphmlPath := by
  rw [FS.write, if_neg graphmlPath_ne_psPath]

lemma final_fs_at_ps (f : FS) (d : String) (doc : GraphMLDoc) :
    FS.write (FS.write f psPath (FileContent.ps d)) htmlOutPath
      (FileContent.html (Graph.ofGraphML doc)) psPath =
      some (FileContent.ps d) := by
  rw [FS.write, if_neg psPath_ne_htmlOutPath, write_ps_at_ps]

lemma final_fs_at_html (f : FS) (d : String) (doc : GraphMLDoc) :
    FS.write (FS.write f psPath (FileContent.ps d)) htmlOutPath
      (FileContent.html (Graph.ofGraphML doc)) htmlOutPath =
      some (FileContent.html (Graph.ofGraphML doc)) := by
  rw [FS.write, if_pos rfl]

/-- C10: the script is deterministic in its inputs: it consults nothing but
the file system at its fixed paths and the availability of the renderer —
no CLI arguments, no environment variables — so two runs over worlds that
agree on those observables produce the same printed line and events (the
trace), the same plotted score sequence and figure state, the same contents
at both output paths, and the same exit status. -/
theorem C10_deterministic (w1 w2 : World)
    (hci : w1.circoInstalled = w2.circoInstalled)
    (hdot : w1.fs dotPath = w2.fs dotPath)
    (hgml : w1.fs graphmlPath = w2.fs graphmlPath)
    (hps : w1.fs psPath = w2.fs psPath)
    (hhtml : w1.fs htmlOutPath = w2.fs htmlOutPath)
    (htr : w1.trace = w2.trace)
    (hplt : w1.plt = w2.plt) :
    (runScript w1).1.trace = (runScript w2).1.trace ∧
    (runScript w1).1.plt = (runScript w2).1.plt ∧
    (runScript w1).1.fs psPath = (runScript w2).1.fs psPath ∧
    (runScript w1).1.fs htmlOutPath = (runScript w2).1.fs htmlOutPath ∧
    exitCode (runScript w1).2 = exitCode (runScript w2).2 := by
  cases hb : w2.circoInstalled with
  | false =>
    have hb1 : w1.circoInstalled = false := by rw [hci, hb]
    rw [runScript_circo_err w1 _ (circoStep_not_installed w1 hb1),
        runScript_circo_err w2 _ (circoStep_not_installed w2 hb)]
    exact ⟨htr, hplt, hps, hhtml, rfl⟩
  | true =>
    have hb1 : w1.circoInstalled = true := by rw [hci, hb]
    by_cases hd : ∃ d, w2.fs dotPath = some (FileContent.dot d)
    · rcases hd with ⟨d, hd2⟩
      have hd1 : w1.fs dotPath = some (FileContent.dot d) := by rw [hdot, hd2]
      by_cases hg : ∃ doc, w2.fs graphmlPath = some (FileContent.graphml doc)
      · rcases hg with ⟨doc, hg2⟩
        have hg1 : w1.fs graphmlPath = some (FileContent.graphml doc) := by
          rw [hgml, hg2]
        rw [runScript_ok w1 d doc hb1 hd1 hg1, runScript_ok w2 d doc hb hd2 hg2]
        refine ⟨?_, rfl, ?_, ?_, rfl⟩
        · show w1.trace ++ fullTrace doc = w2.trace ++ fullTrace doc
          rw [htr]
        · show FS.write (FS.write w1.fs psPath (FileContent.ps d)) htmlOutPath
            (FileContent.html (Graph.ofGraphML doc)) psPath =
            FS.write (FS.write w2.fs psPath (FileContent.ps d)) htmlOutPath
            (FileContent.html (Graph.ofGraphML doc)) psPath
          rw [final_fs_at_ps, final_fs_at_ps]
        · show FS.write (FS.write w1.fs psPath (FileContent.ps d)) htmlOutPath
            (FileContent.html (Graph.ofGraphML doc)) htmlOutPath =
            FS.write (FS.write w2.fs psPath (FileContent.ps d)) htmlOutPath
            (FileContent.html (Graph.ofGraphML doc)) htmlOutPath
          rw [final_fs_at_html, final_fs_at_html]
      · have hno2 : ∀ doc, w2.fs graphmlPath ≠ some (FileContent.graphml doc) :=
          fun doc h => hg ⟨doc, h⟩
        have hno1 : ∀ doc,
            FS.write w1.fs psPath (FileContent.ps d) graphmlPath ≠
              some (FileContent.graphml doc) := by
          intro doc
          rw [write_ps_at_gml, hgml]
          exact hno2 doc
        have hno2w : ∀ doc,
            FS.write w2.fs psPath (FileContent.ps d) graphmlPath ≠
              some (FileContent.graphml doc) := by
          intro doc
          rw [write_ps_at_gml]
          exact hno2 doc
        rw [runScript_read_err w1 _ _ (circoStep_ok_eq w1 d hb1 hd1)
              (readGraphStep_no_gml _ hno1),
            runScript_read_err w2 _ _ (circoStep_ok_eq w2 d hb hd2)
              (readGraphStep_no_gml _ hno2w)]
        refine ⟨?_, hplt, ?_, ?_, rfl⟩
        · show w1.trace ++ [Event.runCirco, Event.writeFile psPath] =
            w2.trace ++ [Event.runCirco, Event.writeFile psPath]
          rw [htr]
        · show FS.write w1.fs psPath (FileContent.ps d) psPath =
            FS.write w2.fs psPath (FileContent.ps d) psPath
          rw [write_ps_at_ps, write_ps_at_ps]
        · show FS.write w1.fs psPath (FileContent.ps d) htmlOutPath =
            FS.write w2.fs psPath (FileContent.ps d) htmlOutPath
          rw [write_ps_at_html, write_ps_at_html, hhtml]
    · have hno2 : ∀ d, w2.fs dotPath ≠ some (FileContent.dot d) :=
        fun d h => hd ⟨d, h⟩
      have hno1 : ∀ d, w1.fs dotPath ≠ some (FileContent.dot d) := by
        rw [hdot]
        exact hno2
      rw [runScript_circo_err w1 _ (circoStep_no_dot w1 hb1 hno1),
          runScript_circo_err w2 _ (circoStep_no_dot w2 hb hno2)]
      exact ⟨htr, hplt, hps, hhtml, rfl⟩

/-- Witness for C10 at two concrete worlds with identical observable
inputs but different pre-existing junk content at an unrelated path. -/
theorem C10_deterministic_witness :
    (runScript wOK).1.trace =
      (runScript { wOK with
        fs := FS.write wOK.fs "unrelated.txt" (FileContent.text "x") }).1.trace ∧
    (runScript wOK).1.plt =
      (runScript { wOK with
        fs := FS.write wOK.fs "unrelated.txt" (FileContent.text "x") }).1.plt := by
  have h := C10_deterministic wOK
    { wOK with fs := FS.write wOK.fs "unrelated.txt" (FileContent.text "x") }
    rfl (by decide) (by decide) (by decide) (by decide) rfl rfl
  exact ⟨h.1, h.2.1⟩

/-- Witness for C5 at a concrete edgeless graph with two nodes. -/
theorem C5_zero_edges_zero_scores_witness :
    ({ nodes := [0, 1], edges := [] } : Graph).numberOfEdges = 0 ∧
    dd { nodes := [0, 1], edges := [] } = List.replicate 2 0 :=
  ⟨rfl, (C5_zero_edges_zero_scores { nodes := [0, 1], edges := [] } rfl).2⟩
